import Mathlib

/-! Marango: schema registry, document materialisation and identifier normalisation

A shallow embedding of `marango.go`.  Go values held in an `interface{}` are
the inductive type `Value`; pointers are addresses into explicit heaps carried
by `World`; a panic is an `Except.error` returned together with the world as
it stands when the panic is raised.
-/

namespace Odm

/-! ## Go data -/

/-- A Go `string`: a sequence of bytes, each a number below 256. -/
abbrev GoString := List Nat

/-- The bytes of an ASCII literal. -/
def bytes (s : String) : GoString := s.toList.map Char.toNat

/-- An address in one of the heaps of `World`.  A Go pointer is an
`Option Addr`, the nil pointer being `none`. -/
abbrev Addr := Nat

/-- The ways the program can panic. -/
inductive Panic where
  /-- A `panic("...")` statement of `marango.go`, with its message. -/
  | str (msg : String)
  /-- The panic of `bson.ObjectIdHex` on invalid input, with the input. -/
  | objectIdHex (s : GoString)
  /-- A panic raised inside package `reflect`. -/
  | reflect (what : String)
  /-- A run-time panic: nil dereference, assignment to an entry of a nil map. -/
  | runtime (what : String)
  deriving DecidableEq, Repr

/-- Dynamic kinds that are neither string, struct nor pointer. -/
inductive OtherKind where
  | bool | number | func | array | chan | map | slice
  deriving DecidableEq, Repr

/-- The kinds of `reflect.Kind` that the code distinguishes. -/
inductive Kind where
  | String | Struct | Ptr | Other (k : OtherKind)
  deriving DecidableEq, Repr

/-- The static type of a struct field, as far as `reflect.Value.Set` looks at
it when a `Document` or a `bson.ObjectId` is assigned. -/
inductive FieldType where
  /-- The field has type `Document`. -/
  | document
  /-- The field has type `bson.ObjectId`. -/
  | objectId
  /-- The field has type `interface{}`. -/
  | emptyInterface
  /-- Any other type; neither a `Document` nor a `bson.ObjectId` is assignable. -/
  | other (typeName : String)
  deriving DecidableEq, Repr

/-- A field of a struct value: its name, static type and current content. -/
structure Field (V : Type) where
  name : String
  type : FieldType
  value : V

/-- Modelled from the spec: the declaration of `Document` is not in
`marango.go`; these are the fields that `Register`, `CreateDoc` and `C` read
and assign, with the types those statements give them.  `populated` is a Go
map, a reference to a map object in the heap (nil when `none`); `Virtual` is
whatever `newVirtual()` returns, kept as a handle. -/
structure Document (V : Type) where
  C : Option Addr
  isQueried : Bool
  schemaStruct : V
  Model : Option Addr
  populated : Option Addr
  Found : Bool
  schema : V
  Virtual : Option Addr

/-- A value held in an `interface{}`, with its dynamic type. -/
inductive Value where
  /-- The nil interface. -/
  | nil
  /-- Dynamic type `string`. -/
  | string (s : GoString)
  /-- Dynamic type `bson.ObjectId` (declared `type ObjectId string`). -/
  | objectId (id : GoString)
  /-- Another defined type whose underlying type is `string`. -/
  | namedString (typeName : String) (s : GoString)
  /-- A struct value of a caller's type (the type name is empty for an
  unnamed struct type), with the fields that `FieldByName` finds by name. -/
  | struct (typeName : String) (fields : List (Field Value))
  /-- A `Document` struct value. -/
  | document (d : Document Value)
  /-- A non-nil pointer, to the variable at this address. -/
  | pointer (target : Addr)
  /-- A nil pointer whose element type has this name. -/
  | nilPointer (elemTypeName : String)
  /-- A value of any other kind. -/
  | other (typeName : String) (k : OtherKind)

/-- The zero value of `Document`. -/
def Document.zero : Document Value :=
  { C := none, isQueried := false, schemaStruct := .nil, Model := none,
    populated := none, Found := false, schema := .nil, Virtual := none }

/-- The kind of a non-nil interface value: `reflect.TypeOf(v).Kind()`. -/
def Value.kind : Value → Option Kind
  | .nil => none
  | .string _ => some .String
  | .objectId _ => some .String
  | .namedString _ _ => some .String
  | .struct _ _ => some .Struct
  | .document _ => some .Struct
  | .pointer _ => some .Ptr
  | .nilPointer _ => some .Ptr
  | .other _ k => some (.Other k)

/-- The name of the dynamic type: `reflect.TypeOf(v).Name()`, empty for
pointer types and unnamed types. -/
def Value.typeName : Value → String
  | .nil => ""
  | .string _ => "string"
  | .objectId _ => "ObjectId"
  | .namedString n _ => n
  | .struct n _ => n
  | .document _ => "Document"
  | .pointer _ => ""
  | .nilPointer _ => ""
  | .other n _ => n

/-! ## Package `encoding/hex` and package `bson` (external collaborators)

`marango.go` delegates identifier parsing and generation to
`gopkg.in/mgo.v2/bson`; the definitions below follow that package and the
standard library function it calls. -/

/-- Function `fromHexChar` of `encoding/hex`: the value of a hexadecimal
digit, in either case. -/
def fromHexChar (c : Nat) : Option Nat :=
  if 48 ≤ c ∧ c ≤ 57 then some (c - 48)
  else if 97 ≤ c ∧ c ≤ 102 then some (c - 97 + 10)
  else if 65 ≤ c ∧ c ≤ 70 then some (c - 65 + 10)
  else none

/-- The errors of `encoding/hex`. -/
inductive HexError where
  | ErrLength
  | InvalidByteError (c : Nat)
  deriving DecidableEq, Repr

/-- The loop of `hex.Decode`: two digits give one byte, `(a << 4) | b`. -/
def decodePairs : GoString → Except HexError GoString
  | p :: q :: rest =>
    match fromHexChar p with
    | none => .error (.InvalidByteError p)
    | some a =>
      match fromHexChar q with
      | none => .error (.InvalidByteError q)
      | some b =>
        match decodePairs rest with
        | .error e => .error e
        | .ok ds => .ok ((a * 16 + b) :: ds)
  | _ => .ok []

/-- Function `hex.DecodeString`: an odd length is `ErrLength`, a byte that
is not a hexadecimal digit is `InvalidByteError`. -/
def DecodeString (s : GoString) : Except HexError GoString :=
  if s.length % 2 = 1 then .error .ErrLength else decodePairs s

/-- Function `bson.ObjectIdHex`: decodes the hex text and panics unless it
decodes to exactly 12 bytes. -/
def ObjectIdHex (s : GoString) : Except Panic GoString :=
  match DecodeString s with
  | .error _ => .error (.objectIdHex s)
  | .ok d => if d.length ≠ 12 then .error (.objectIdHex s) else .ok d

/-! ## Identifier conversion (`marango.go`) -/

/-- Function `ObjectId`: converts the hex text of an identifier. -/
def ObjectId (id : GoString) : Except Panic GoString :=
  ObjectIdHex id

/-- Function `getObjectId`: a type switch on the dynamic type of `id`. -/
def getObjectId (id : Value) : Except Panic GoString :=
  match id with
  | .string s => ObjectIdHex s
  | .objectId idActual => .ok idActual
  | _ => .error (.str "Only accepts types `string` and `bson.ObjectId` accepted as Id")

/-- A byte that is a hexadecimal digit: `0`-`9`, `a`-`f` or `A`-`F`. -/
def IsHexDigit (c : Nat) : Prop :=
  (48 ≤ c ∧ c ≤ 57) ∨ (97 ≤ c ∧ c ≤ 102) ∨ (65 ≤ c ∧ c ≤ 70)

instance (c : Nat) : Decidable (IsHexDigit c) := by
  unfold IsHexDigit; infer_instance

/-- A byte that is a lowercase hexadecimal digit: `0`-`9` or `a`-`f`. -/
def IsLowerHexDigit (c : Nat) : Prop :=
  (48 ≤ c ∧ c ≤ 57) ∨ (97 ≤ c ∧ c ≤ 102)

instance (c : Nat) : Decidable (IsLowerHexDigit c) := by
  unfold IsLowerHexDigit; infer_instance

/-- The zero value of `bson.ObjectId`: the empty string. -/
def zeroObjectId : GoString := []

/-- The generator state of package `bson`: the package variables
`machineId`, `processId` and `objectIdCounter`, and the clock that
`time.Now().Unix()` reads (`clock k` is the value of the reading number `k`). -/
structure BsonState where
  clock : Nat → Nat
  clockReads : Nat
  machineId : Nat × Nat × Nat
  processId : Nat
  objectIdCounter : Nat

/-- Function `bson.NewObjectId`: 4 bytes of timestamp (big endian), 3 bytes
of machine id, 2 bytes of process id, and the low 3 bytes of the 32-bit counter
after it is incremented (`atomic.AddUint32(&objectIdCounter, 1)`). -/
def NewObjectId (b : BsonState) : GoString × BsonState :=
  let t := b.clock b.clockReads % 2 ^ 32
  let i := (b.objectIdCounter + 1) % 2 ^ 32
  ([t / 2 ^ 24 % 256, t / 2 ^ 16 % 256, t / 2 ^ 8 % 256, t % 256,
    b.machineId.1 % 256, b.machineId.2.1 % 256, b.machineId.2.2 % 256,
    b.processId / 2 ^ 8 % 256, b.processId % 256,
    i / 2 ^ 16 % 256, i / 2 ^ 8 % 256, i % 256],
   { b with clockReads := b.clockReads + 1, objectIdCounter := i })

/-! ## The registry and the heaps -/

/-- Type `mgo.Session`, as far as `Session.DB` reads it. -/
structure Session where
  defaultdb : String

/-- Type `mgo.Database`, as far as `Database.C` reads it. -/
structure Database where
  Name : String
  deriving DecidableEq, Repr

/-- Type `mgo.Collection`: what `Database.C` puts into a new collection. -/
structure Collection where
  Database : Database
  Name : String
  FullName : String
  deriving DecidableEq, Repr

/-- Modelled from the spec: the declaration of `Model` is not in
`marango.go`; a Model is "bound to one collection", the handle given to
`newModel`. -/
structure Model where
  C : Option Addr
  deriving DecidableEq, Repr

/-- A Go `map[string]V` held by value: nil (`none`) or a finite table. -/
abbrev GoMap (V : Type) := Option (String → Option V)

/-- The index expression `m[k]` with its `ok` flag; reading a nil map finds
nothing. -/
def mapIndex {V : Type} (m : GoMap V) (k : String) : Option V :=
  match m with
  | none => none
  | some f => f k

/-- The assignment `m[k] = v`, replacing what the key held; `none` when the
map is nil (Go panics). -/
def mapAssign {V : Type} (m : GoMap V) (k : String) (v : V) : Option (GoMap V) :=
  match m with
  | none => none
  | some f => some (some (fun k' => if k' = k then some v else f k'))

/-- Struct `Marango`: the database handle, the two registry maps keyed by
type name, and the relationship tag key. -/
structure Marango where
  Db : Option Database
  documents : GoMap (Document Value)
  models : GoMap (Option Addr)
  modelTag : String

/-- The state of the program: the registry `z`, the heap objects that
pointers and maps refer to, the variables of the caller (`cells`), and the
identifier generator. -/
structure World where
  z : Marango
  collections : List Collection
  models : List Model
  maps : List (String → Option Value)
  virtuals : Nat
  cells : Addr → Value
  bson : BsonState

/-- The text of Go's nil dereference panic. -/
def nilDereference : Panic :=
  .runtime "invalid memory address or nil pointer dereference"

/-- The text of Go's panic on a write to a nil map. -/
def nilMapAssignment : Panic :=
  .runtime "assignment to entry in nil map"

/-- Method `Session.DB` of `mgo`: a new database handle; an empty name means
the session's default database. -/
def SessionDB (s : Option Session) (name : String) : Except Panic Database :=
  if name = "" then
    match s with
    | none => .error nilDereference
    | some s => .ok { Name := s.defaultdb }
  else .ok { Name := name }

/-- Method `Database.C` of `mgo`: allocates
`&Collection{db, name, db.Name + "." + name}`. -/
def DatabaseC (w : World) (db : Option Database) (name : String) :
    Except Panic (Option Addr) × World :=
  match db with
  | none => (.error nilDereference, w)
  | some d =>
    (.ok (some w.collections.length),
     { w with collections := w.collections ++
        [{ Database := d, Name := name, FullName := d.Name ++ "." ++ name }] })

/-- Modelled from the spec: `newModel` is not in `marango.go`; it
"constructs a new Model bound to that handle" and returns a pointer to it. -/
def newModel (w : World) (c : Option Addr) : Option Addr × World :=
  (some w.models.length, { w with models := w.models ++ [{ C := c }] })

/-- Modelled from the spec: `newVirtual` is not in `marango.go`; it yields
"a freshly-constructed Virtual substructure", here a handle never given
before. -/
def newVirtual (w : World) : Option Addr × World :=
  (some w.virtuals, { w with virtuals := w.virtuals + 1 })

/-- The expression `make(map[string]interface{})`: a new, empty map object. -/
def makeMap (w : World) : Option Addr × World :=
  (some w.maps.length, { w with maps := w.maps ++ [fun _ => none] })

/-- Function `New`: a registry for database `db` with two empty maps and the
tag key `model`. -/
def New (w : World) (s : Option Session) (db : String) : Except Panic Unit × World :=
  match SessionDB s db with
  | .error p => (.error p, w)
  | .ok d =>
    let marango : Marango :=
      { Db := some d, documents := some (fun _ => none), models := some (fun _ => none),
        modelTag := "model" }
    (.ok (), { w with z := marango })

/-- Method `SetModelTag`. -/
def SetModelTag (w : World) (key : String) : World :=
  { w with z := { w.z with modelTag := key } }

/-! ## Reflection -/

/-- The field of that name among the fields of a struct. -/
def fieldByName : List (Field Value) → String → Option (Field Value)
  | [], _ => none
  | f :: rest, name => if f.name = name then some f else fieldByName rest name

/-- Method `reflect.Value.FieldByName`: panics unless the value is a struct;
the zero Value (`none`) when the struct has no such field.  Of `Document`
only the fields of the structure above are known, none of them is named
`Id` or `Document`. -/
def FieldByName (v : Value) (name : String) : Except Panic (Option (Field Value)) :=
  match v with
  | .struct _ fields => .ok (fieldByName fields name)
  | .document _ => .ok none
  | _ => .error (.reflect "call of reflect.Value.FieldByName on a Value that is not a struct")

/-- Whether `reflect.Value.Set` accepts a `Document` or `bson.ObjectId`
value for a field of this static type. -/
def assignable : FieldType → Value → Bool
  | .emptyInterface, .document _ => true
  | .emptyInterface, .objectId _ => true
  | .document, .document _ => true
  | .objectId, .objectId _ => true
  | _, _ => false

/-- The statement pair `f := val.FieldByName(name); f.Set(reflect.ValueOf(x))`
on an addressable struct: panics when there is no such field (Set on the
zero Value) or when `x` is not assignable to the field's type. -/
def setField : List (Field Value) → String → Value → Except Panic (List (Field Value))
  | [], _, _ => .error (.reflect "call of reflect.Value.Set on zero Value")
  | f :: rest, name, x =>
    if f.name = name then
      if assignable f.type x then .ok ({ f with value := x } :: rest)
      else .error (.reflect "reflect.Set: value is not assignable to the type of the field")
    else
      match setField rest name x with
      | .error p => .error p
      | .ok rest1 => .ok (f :: rest1)

/-- The write through a pointer: the variable at `a` becomes `v`. -/
def storeCell (cells : Addr → Value) (a : Addr) (v : Value) : Addr → Value :=
  fun x => if x = a then v else cells x

/-! ## The registry operations (`marango.go`) -/

/-- Method `Marango.Register`. -/
def Register (w : World) (schema : Value) (collectionName : String) :
    Except Panic (Option Addr) × World :=
  -- typ := reflect.TypeOf(schema); structName := typ.Name()
  match schema.kind with
  | none => (.error nilDereference, w)
  | some kind =>
    let structName := schema.typeName
    -- if typ.Kind() == reflect.Ptr
    if kind = .Ptr then (.error (.str "Expected value, got a pointer"), w)
    else
      -- idField := reflect.ValueOf(schema).FieldByName("Id")
      match FieldByName schema "Id" with
      | .error p => (.error p, w)
      | .ok none =>
        (.error (.str ("Schema `" ++ structName ++ "` must have an `Id` field")), w)
      | .ok (some _) =>
        -- model := newModel(z.Db.C(collectionName), z)
        match DatabaseC w w.z.Db collectionName with
        | (.error p, w1) => (.error p, w1)
        | (.ok c, w1) =>
          match newModel w1 c with
          | (model, w2) =>
            -- z.models[structName] = model
            match mapAssign w2.z.models structName model with
            | none => (.error nilMapAssignment, w2)
            | some ms =>
              -- z.documents[structName] = Document{C: z.Db.C(collectionName), ...}
              match DatabaseC { w2 with z := { w2.z with models := ms } } w2.z.Db
                  collectionName with
              | (.error p, w4) => (.error p, w4)
              | (.ok c2, w4) =>
                match makeMap w4 with
                | (populated, w5) =>
                  match mapAssign w5.z.documents structName
                      { C := c2, isQueried := true, schemaStruct := schema,
                        Model := model, populated := populated, Found := true,
                        schema := .nil, Virtual := none } with
                  | none => (.error nilMapAssignment, w5)
                  | some ds =>
                    (.ok model, { w5 with z := { w5.z with documents := ds } })

/-- Method `Marango.CreateDoc`. -/
def CreateDoc (w : World) (doc : Value) : Except Panic Unit × World :=
  match doc with
  -- reflect.TypeOf(nil) is nil: the call typ.Elem() dereferences it
  | .nil => (.error nilDereference, w)
  | .pointer a =>
    -- typ := reflect.TypeOf(doc).Elem(); structName := typ.Name()
    let structName := (w.cells a).typeName
    -- document := z.documents[structName]
    let document := (mapIndex w.z.documents structName).getD Document.zero
    -- document.schema = doc; document.Model = z.models[structName]
    let document := { document with schema := doc }
    let document := { document with Model := (mapIndex w.z.models structName).getD none }
    -- document.Virtual = newVirtual()
    match newVirtual w with
    | (virtual, w1) =>
      let document := { document with Virtual := virtual }
      -- val := reflect.ValueOf(doc).Elem(); docVal := val.FieldByName("Document")
      match w1.cells a with
      | .struct n fields =>
        -- docVal.Set(reflect.ValueOf(document))
        match setField fields "Document" (.document document) with
        | .error p => (.error p, w1)
        | .ok fields1 =>
          let w2 := { w1 with cells := storeCell w1.cells a (.struct n fields1) }
          -- idField := ...FieldByName("Id"); id := bson.NewObjectId()
          match NewObjectId w2.bson with
          | (id, b) =>
            let w3 := { w2 with bson := b }
            -- idField.Set(reflect.ValueOf(id))
            match setField fields1 "Id" (.objectId id) with
            | .error p => (.error p, w3)
            | .ok fields2 =>
              (.ok (), { w3 with cells := storeCell w3.cells a (.struct n fields2) })
      | .document _ =>
        (.error (.reflect "call of reflect.Value.Set on zero Value"), w1)
      | _ =>
        (.error (.reflect
          "call of reflect.Value.FieldByName on a Value that is not a struct"), w1)
  | .nilPointer _ =>
    -- Elem() of a nil pointer is the zero Value, FieldByName panics on it
    match newVirtual w with
    | (_, w1) =>
      (.error (.reflect "call of reflect.Value.FieldByName on zero Value"), w1)
  | .other _ k =>
    -- Type.Elem() exists for arrays, channels, maps and slices, Value.Elem() does not
    if k = .array ∨ k = .chan ∨ k = .map ∨ k = .slice then
      match newVirtual w with
      | (_, w1) => (.error (.reflect "call of reflect.Value.Elem on a Value that is not a pointer"), w1)
    else (.error (.reflect "reflect: Elem of invalid type"), w)
  | _ => (.error (.reflect "reflect: Elem of invalid type"), w)

/-- Method `Marango.C`: the collection handle of a registered model and
whether the model is registered. -/
def C (w : World) (model : String) : Option Addr × Bool :=
  match mapIndex w.z.documents model with
  | some m => (m.C, true)
  | none => (Document.zero.C, false)

/-- Method `Marango.Model`: the registered model, nil when there is none. -/
def Marango.Model (w : World) (name : String) : Option Addr :=
  (mapIndex w.z.models name).getD none

/-- The state after a successful `Register`: two new collection handles, a
new model, a new empty map, and the two registry entries under `T`. -/
def registered (w : World) (T : String) (schema : Value) (collectionName : String)
    (db : Database) (ms : String → Option (Option Addr))
    (ds : String → Option (Document Value)) : World :=
  { w with
    z := { w.z with
      models := some (fun k => if k = T then some (some w.models.length) else ms k),
      documents := some (fun k => if k = T then
          some { C := some (w.collections.length + 1), isQueried := true,
                 schemaStruct := schema, Model := some w.models.length,
                 populated := some w.maps.length, Found := true,
                 schema := .nil, Virtual := none }
        else ds k) },
    collections := w.collections ++
      [{ Database := db, Name := collectionName, FullName := db.Name ++ "." ++ collectionName },
       { Database := db, Name := collectionName, FullName := db.Name ++ "." ++ collectionName }],
    models := w.models ++ [{ C := some w.collections.length }],
    maps := w.maps ++ [fun _ => none] }

/-! ## Reading the fields of a caller's variable -/

/-- The Go expression `p.Document` for the pointer `p` to the variable at
address `a`: the `Document` that the field of that name holds, if any. -/
def documentOf (w : World) (a : Addr) : Option (Document Value) :=
  match w.cells a with
  | .struct _ fields =>
    match fieldByName fields "Document" with
    | some f =>
      match f.value with
      | .document d => some d
      | _ => none
    | none => none
  | _ => none

/-- The Go expression `p.Id` for the pointer `p` to the variable at address
`a`: the identifier that the field `Id` holds, if any. -/
def idOf (w : World) (a : Addr) : Option GoString :=
  match w.cells a with
  | .struct _ fields =>
    match fieldByName fields "Id" with
    | some f =>
      match f.value with
      | .objectId id => some id
      | _ => none
    | none => none
  | _ => none

/-- A variable that `CreateDoc` can materialise: a struct of type `T` with a
field `Document` of type `Document` (or `interface{}`) and a field `Id` of
type `bson.ObjectId` (or `interface{}`). -/
def IsInstance (v : Value) (T : String) : Prop :=
  ∃ fields fd fi, v = .struct T fields ∧
    fieldByName fields "Document" = some fd ∧
    (fd.type = .document ∨ fd.type = .emptyInterface) ∧
    fieldByName fields "Id" = some fi ∧
    (fi.type = .objectId ∨ fi.type = .emptyInterface)

/-- A variable into which `CreateDoc` can inject a `Document`: a struct of
type `T` with a field `Document` of type `Document` (or `interface{}`). -/
def HasDocumentField (v : Value) (T : String) : Prop :=
  ∃ fields fd, v = .struct T fields ∧
    fieldByName fields "Document" = some fd ∧
    (fd.type = .document ∨ fd.type = .emptyInterface)

/-! ## Example data -/

/-- A world before `New`: no registry maps, empty heaps. -/
def emptyWorld : World :=
  { z := { Db := none, documents := none, models := none, modelTag := "" },
    collections := [], models := [], maps := [], virtuals := 0,
    cells := fun _ => .nil,
    bson := { clock := fun k => 1446595200 + k, clockReads := 0, machineId := (1, 2, 3),
              processId := 4242, objectIdCounter := 7 } }

/-- The fields of `User{Document, Id, Name}` with the given name. -/
def userFields (name : String) : List (Field Value) :=
  [{ name := "Document", type := .document, value := .document Document.zero },
   { name := "Id", type := .objectId, value := .objectId zeroObjectId },
   { name := "Name", type := .other "string", value := .string (bytes name) }]

/-- The fields of a struct `Point{X, Y}`, which has no `Id`. -/
def pointFields : List (Field Value) :=
  [{ name := "X", type := .other "int", value := .other "int" .number },
   { name := "Y", type := .other "int", value := .other "int" .number }]

/-- The fields of a struct `Bare{Id}`: an identifier already set, and no
field `Document`. -/
def bareFields : List (Field Value) :=
  [{ name := "Id", type := .objectId,
     value := .objectId [80, 127, 31, 119, 188, 248, 108, 215, 153, 67, 144, 17] }]

/-- The world after `New(s, "app")`, with two `User` variables of the caller
at the addresses 0 and 1, a `Point` variable at address 2 and a `Bare`
variable at address 3. -/
def freshWorld : World :=
  { (New emptyWorld (some { defaultdb := "test" }) "app").2 with
    cells := fun a =>
      if a = 0 then .struct "User" (userFields "Ann")
      else if a = 1 then .struct "User" (userFields "Bob")
      else if a = 2 then .struct "Point" pointFields
      else if a = 3 then .struct "Bare" bareFields
      else .nil }

/-- The world after `Register(User{}, "users")` in `freshWorld`. -/
def registeredWorld : World :=
  (Register freshWorld (.struct "User" (userFields "")) "users").2

/-! ## Hexadecimal decoding -/

theorem fromHexChar_isSome_iff (c : Nat) : (fromHexChar c).isSome = true ↔ IsHexDigit c := by
  unfold fromHexChar IsHexDigit
  split_ifs <;> simp <;> omega

theorem fromHexChar_of_digit {c : Nat} (h : IsHexDigit c) : ∃ a, fromHexChar c = some a := by
  have := (fromHexChar_isSome_iff c).2 h
  exact Option.isSome_iff_exists.1 this

theorem digit_of_fromHexChar {c a : Nat} (h : fromHexChar c = some a) : IsHexDigit c :=
  (fromHexChar_isSome_iff c).1 (by simp [h])

/-- On hexadecimal digits the decoding loop succeeds, with one byte for two
digits. -/
theorem decodePairs_of_digits :
    ∀ s : GoString, (∀ c ∈ s, IsHexDigit c) →
      ∃ d, decodePairs s = .ok d ∧ d.length = s.length / 2
  | [], _ => ⟨[], rfl, rfl⟩
  | [_], _ => ⟨[], rfl, by simp⟩
  | p :: q :: rest, h => by
    obtain ⟨d, hd, hl⟩ := decodePairs_of_digits rest (fun c hc => h c (by simp [hc]))
    obtain ⟨a, ha⟩ := fromHexChar_of_digit (h p (by simp))
    obtain ⟨b, hb⟩ := fromHexChar_of_digit (h q (by simp))
    refine ⟨(a * 16 + b) :: d, ?_, ?_⟩
    · simp [decodePairs, ha, hb, hd]
    · simp only [List.length_cons, hl]; omega

/-- When the decoding loop succeeds on a text of even length, every byte of
the text is a hexadecimal digit and the result has half its length. -/
theorem digits_of_decodePairs :
    ∀ (s d : GoString), s.length % 2 = 0 → decodePairs s = .ok d →
      (∀ c ∈ s, IsHexDigit c) ∧ d.length * 2 = s.length
  | [], d, _, h => by
    simp [decodePairs] at h
    subst h; simp
  | [_], _, hl, _ => by simp at hl
  | p :: q :: rest, d, hl, h => by
    simp only [decodePairs] at h
    cases ha : fromHexChar p with
    | none => simp [ha] at h
    | some a =>
      cases hb : fromHexChar q with
      | none => simp [ha, hb] at h
      | some b =>
        cases hr : decodePairs rest with
        | error e => simp [ha, hb, hr] at h
        | ok ds =>
          simp only [ha, hb, hr, Except.ok.injEq] at h
          have hl2 : rest.length % 2 = 0 := by
            simp only [List.length_cons] at hl; omega
          obtain ⟨hall, hlen⟩ := digits_of_decodePairs rest ds hl2 hr
          subst h
          refine ⟨?_, by simp only [List.length_cons]; omega⟩
          intro c hc
          simp only [List.mem_cons] at hc
          rcases hc with rfl | rfl | hc
          · exact digit_of_fromHexChar ha
          · exact digit_of_fromHexChar hb
          · exact hall c hc

/-- Function `bson.ObjectIdHex` succeeds exactly on the texts of 24
hexadecimal digits. -/
theorem ObjectIdHex_ok_iff (s : GoString) :
    (∃ id, ObjectIdHex s = .ok id) ↔ (s.length = 24 ∧ ∀ c ∈ s, IsHexDigit c) := by
  constructor
  · rintro ⟨id, h⟩
    unfold ObjectIdHex DecodeString at h
    by_cases hodd : s.length % 2 = 1
    · simp [hodd] at h
    · simp only [hodd, if_false] at h
      cases hd : decodePairs s with
      | error e => simp [hd] at h
      | ok d =>
        simp only [hd] at h
        by_cases h12 : d.length = 12
        · obtain ⟨hall, hlen⟩ := digits_of_decodePairs s d (by omega) hd
          exact ⟨by omega, hall⟩
        · simp [h12] at h
  · rintro ⟨hlen, hall⟩
    obtain ⟨d, hd, hl⟩ := decodePairs_of_digits s hall
    refine ⟨d, ?_⟩
    unfold ObjectIdHex DecodeString
    have h12 : d.length = 12 := by omega
    simp [hlen, hd, h12]

theorem ObjectIdHex_error (s : GoString) (h : ¬ ∃ id, ObjectIdHex s = .ok id) :
    ObjectIdHex s = .error (.objectIdHex s) := by
  unfold ObjectIdHex at h ⊢
  cases hd : DecodeString s with
  | error e => rfl
  | ok d =>
    simp only [hd] at h ⊢
    by_cases h12 : d.length = 12
    · exact absurd ⟨d, by simp [h12]⟩ h
    · simp [h12]

theorem ObjectIdHex_length {s id : GoString} (h : ObjectIdHex s = .ok id) : id.length = 12 := by
  unfold ObjectIdHex at h
  cases hd : DecodeString s with
  | error e => simp [hd] at h
  | ok d =>
    simp only [hd] at h
    by_cases h12 : d.length = 12
    · simp [h12] at h; subst h; exact h12
    · simp [h12] at h

/-! ## Claims about identifier conversion -/

/-- C2: for every text `s` of 24 hexadecimal digits `getObjectId` succeeds on
the string `s`, with a 12-byte identifier; for every value `id0` already of
type `bson.ObjectId` it returns `id0` unchanged; hence converting the result
of converting `s` gives the same result again. -/
theorem getObjectId_idempotent (s id0 : GoString)
    (hlen : s.length = 24) (hhex : ∀ c ∈ s, IsHexDigit c) :
    (∃ id, getObjectId (.string s) = .ok id ∧ id.length = 12 ∧
      getObjectId (.objectId id) = getObjectId (.string s)) ∧
    getObjectId (.objectId id0) = .ok id0 := by
  obtain ⟨id, hid⟩ := (ObjectIdHex_ok_iff s).2 ⟨hlen, hhex⟩
  exact ⟨⟨id, hid, ObjectIdHex_length hid, by simp [getObjectId, hid]⟩, rfl⟩

theorem getObjectId_idempotent_witness :
    (∃ id, getObjectId (.string (bytes "507f1f77bcf86cd799439011")) = .ok id ∧
      id.length = 12 ∧
      getObjectId (.objectId id) = getObjectId (.string (bytes "507f1f77bcf86cd799439011"))) ∧
    getObjectId (.objectId [1, 2, 3]) = .ok [1, 2, 3] :=
  getObjectId_idempotent (bytes "507f1f77bcf86cd799439011") [1, 2, 3] (by decide) (by decide)

/-- C3, as stated, fails: the text `507F1F77BCF86CD799439011` is not a
lowercase hexadecimal string (it has capital digits), yet `ObjectId` and
`getObjectId` return an identifier for it. -/
theorem ObjectId_uppercase_succeeds :
    ¬ ((bytes "507F1F77BCF86CD799439011").length = 24 ∧
        ∀ c ∈ bytes "507F1F77BCF86CD799439011", IsLowerHexDigit c) ∧
    ObjectId (bytes "507F1F77BCF86CD799439011") =
      .ok [80, 127, 31, 119, 188, 248, 108, 215, 153, 67, 144, 17] ∧
    getObjectId (.string (bytes "507F1F77BCF86CD799439011")) =
      .ok [80, 127, 31, 119, 188, 248, 108, 215, 153, 67, 144, 17] :=
  ⟨by decide, rfl, rfl⟩

/-- C3, amended: for every string that is not a string of exactly 24
hexadecimal digits (`0`-`9`, `a`-`f` or `A`-`F`), `ObjectId` and
`getObjectId` panic instead of returning an identifier; both are pure, there
is no state they could leave changed.  The text `507f1f77bcf86cd799439011`
is converted. -/
theorem ObjectId_rejects_non_hex (s : GoString)
    (h : ¬ (s.length = 24 ∧ ∀ c ∈ s, IsHexDigit c)) :
    ObjectId s = .error (.objectIdHex s) ∧
    getObjectId (.string s) = .error (.objectIdHex s) ∧
    ∃ id, ObjectId (bytes "507f1f77bcf86cd799439011") = .ok id := by
  have hno : ¬ ∃ id, ObjectIdHex s = .ok id := fun hex => h ((ObjectIdHex_ok_iff s).1 hex)
  exact ⟨ObjectIdHex_error s hno, ObjectIdHex_error s hno, ⟨_, rfl⟩⟩

theorem ObjectId_rejects_non_hex_witness :
    ObjectId (bytes "not-an-id") = .error (.objectIdHex (bytes "not-an-id")) ∧
    getObjectId (.string (bytes "not-an-id")) = .error (.objectIdHex (bytes "not-an-id")) ∧
    ∃ id, ObjectId (bytes "507f1f77bcf86cd799439011") = .ok id :=
  ObjectId_rejects_non_hex (bytes "not-an-id") (by decide)

/-- C9: for every value whose dynamic type is neither `string` nor
`bson.ObjectId` (the nil interface and other types derived from string
included), `getObjectId` panics and returns no identifier. -/
theorem getObjectId_rejects_other_types (v : Value)
    (hs : ∀ s, v ≠ .string s) (ho : ∀ id, v ≠ .objectId id) :
    getObjectId v =
      .error (.str "Only accepts types `string` and `bson.ObjectId` accepted as Id") := by
  cases v with
  | string s => exact absurd rfl (hs s)
  | objectId id => exact absurd rfl (ho id)
  | _ => rfl

theorem getObjectId_rejects_other_types_witness :
    getObjectId .nil =
        .error (.str "Only accepts types `string` and `bson.ObjectId` accepted as Id") ∧
    getObjectId (.namedString "Hex" (bytes "507f1f77bcf86cd799439011")) =
        .error (.str "Only accepts types `string` and `bson.ObjectId` accepted as Id") :=
  ⟨getObjectId_rejects_other_types .nil (by simp) (by simp),
   getObjectId_rejects_other_types (.namedString "Hex" (bytes "507f1f77bcf86cd799439011"))
     (by simp) (by simp)⟩

/-! ## Registration of a struct that has an `Id` field -/

/-- With a database handle and two non-nil maps, `Register` of a struct
with an `Id` field returns the new model and the state `registered`. -/
theorem Register_ok (w : World) (T : String) (fields : List (Field Value))
    (collectionName : String) (f : Field Value) (db : Database)
    (ms : String → Option (Option Addr)) (ds : String → Option (Document Value))
    (h : fieldByName fields "Id" = some f)
    (hDb : w.z.Db = some db) (hm : w.z.models = some ms) (hd : w.z.documents = some ds) :
    Register w (.struct T fields) collectionName =
      (.ok (some w.models.length),
       registered w T (.struct T fields) collectionName db ms ds) := by
  obtain ⟨⟨Db, documents, models, tag⟩, cs, mds, mps, vs, cells, b⟩ := w
  simp only at hDb hm hd
  subst hDb hm hd
  simp [Register, Value.kind, Value.typeName, FieldByName, h, DatabaseC, newModel, makeMap,
    mapAssign, registered]

/-- The result of `Register` of a struct with an `Id` field, in any state:
a nil database handle or a nil map makes it panic. -/
theorem Register_outcome (w : World) (T : String) (fields : List (Field Value))
    (collectionName : String) (f : Field Value) (h : fieldByName fields "Id" = some f) :
    (Register w (.struct T fields) collectionName).1 =
      if w.z.Db.isNone then .error nilDereference
      else if w.z.models.isNone then .error nilMapAssignment
      else if w.z.documents.isNone then .error nilMapAssignment
      else .ok (some w.models.length) := by
  obtain ⟨⟨Db, documents, models, tag⟩, cs, mds, mps, vs, cells, b⟩ := w
  cases Db with
  | none => simp [Register, Value.kind, FieldByName, h, DatabaseC]
  | some db =>
    cases models with
    | none => simp [Register, Value.kind, FieldByName, h, DatabaseC, newModel, mapAssign]
    | some ms =>
      cases documents with
      | none =>
        simp [Register, Value.kind, FieldByName, h, DatabaseC, newModel, mapAssign, makeMap]
      | some ds =>
        simp [Register, Value.kind, FieldByName, h, DatabaseC, newModel, mapAssign, makeMap]

/-! ## Materialisation of a well-formed instance -/

theorem setField_ok :
    ∀ (fields : List (Field Value)) (name : String) (x : Value) (f : Field Value),
      fieldByName fields name = some f → assignable f.type x = true →
      ∃ fields1, setField fields name x = .ok fields1 ∧
        fieldByName fields1 name = some { f with value := x } ∧
        ∀ n, n ≠ name → fieldByName fields1 n = fieldByName fields n
  | [], _, _, _, h, _ => by simp [fieldByName] at h
  | g :: rest, name, x, f, h, ha => by
    by_cases hg : g.name = name
    · simp only [fieldByName, hg, if_true, Option.some.injEq] at h
      subst h
      refine ⟨{ g with value := x } :: rest, ?_, ?_, ?_⟩
      · simp [setField, hg, ha]
      · simp [fieldByName, hg]
      · intro n hn
        have : ¬ g.name = n := fun e => hn (e ▸ hg.symm ▸ rfl)
        simp [fieldByName, this]
    · simp only [fieldByName, hg, if_false] at h
      obtain ⟨rest1, h1, h2, h3⟩ := setField_ok rest name x f h ha
      refine ⟨g :: rest1, ?_, ?_, ?_⟩
      · simp [setField, hg, h1]
      · simp [fieldByName, hg, h2]
      · intro n hn
        simp [fieldByName, h3 n hn]

theorem assignable_document {t : FieldType} (d : Document Value)
    (h : t = .document ∨ t = .emptyInterface) : assignable t (.document d) = true := by
  rcases h with rfl | rfl <;> rfl

theorem assignable_objectId {t : FieldType} (id : GoString)
    (h : t = .objectId ∨ t = .emptyInterface) : assignable t (.objectId id) = true := by
  rcases h with rfl | rfl <;> rfl

/-- On a pointer to a well-formed instance `CreateDoc` returns; afterwards
the field `Document` holds the copy of the registry's prototype (or of the
zero `Document`) with `schema`, `Model` and `Virtual` set, the field `Id`
holds the identifier that `bson.NewObjectId` gave, the instance is still
well-formed, and nothing else has changed but the two generators. -/
theorem CreateDoc_ok (w : World) (a : Addr) (T : String) (h : IsInstance (w.cells a) T) :
    ∃ w1, CreateDoc w (.pointer a) = (.ok (), w1) ∧
      documentOf w1 a = some
        { (mapIndex w.z.documents T).getD Document.zero with
          schema := .pointer a,
          Model := (mapIndex w.z.models T).getD none,
          Virtual := some w.virtuals } ∧
      idOf w1 a = some (NewObjectId w.bson).1 ∧
      IsInstance (w1.cells a) T ∧
      (∀ b, b ≠ a → w1.cells b = w.cells b) ∧
      w1.z = w.z ∧ w1.maps = w.maps ∧ w1.models = w.models ∧
      w1.collections = w.collections ∧
      w1.bson = (NewObjectId w.bson).2 ∧ w1.virtuals = w.virtuals + 1 := by
  obtain ⟨fields, fd, fi, hcell, hD, hDt, hI, hIt⟩ := h
  obtain ⟨fields1, hs1, hd1, hrest1⟩ := setField_ok fields "Document"
    (.document { (mapIndex w.z.documents T).getD Document.zero with
          schema := .pointer a,
          Model := (mapIndex w.z.models T).getD none,
          Virtual := some w.virtuals }) fd hD (assignable_document _ hDt)
  have hI1 : fieldByName fields1 "Id" = some fi := by
    rw [hrest1 "Id" (by decide)]; exact hI
  obtain ⟨fields2, hs2, hd2, hrest2⟩ := setField_ok fields1 "Id"
    (.objectId (NewObjectId w.bson).1) fi hI1 (assignable_objectId _ hIt)
  have hD2 : fieldByName fields2 "Document" = _ := (hrest2 "Document" (by decide)).trans hd1
  have hcd : CreateDoc w (.pointer a) = (.ok (),
      { w with
        virtuals := w.virtuals + 1,
        cells := storeCell (storeCell w.cells a (.struct T fields1)) a (.struct T fields2),
        bson := (NewObjectId w.bson).2 }) := by
    simp only [CreateDoc, newVirtual, hcell, Value.typeName]
    rw [hs1]
    simp only
    rw [hs2]
  refine ⟨_, hcd, ?_, ?_, ?_, ?_, rfl, rfl, rfl, rfl, rfl, rfl⟩
  · simp [documentOf, storeCell, hD2]
  · simp [idOf, storeCell, hd2]
  · exact ⟨fields2, _, _, by simp [storeCell], hD2, hDt, hd2, hIt⟩
  · intro b hb
    simp [storeCell, hb]

/-- A successful `Set` of one field leaves the fields of other names as
they were. -/
theorem setField_frame :
    ∀ (fields fields1 : List (Field Value)) (name : String) (x : Value),
      setField fields name x = .ok fields1 →
      ∀ n, n ≠ name → fieldByName fields1 n = fieldByName fields n
  | [], _, _, _, h => by simp [setField] at h
  | g :: rest, fields1, name, x, h => by
    intro n hn
    by_cases hg : g.name = name
    · by_cases ha : assignable g.type x = true
      · simp only [setField, hg, ha, if_true, Except.ok.injEq] at h
        subst h
        have : ¬ name = n := fun e => hn e.symm
        simp [fieldByName, hg, this]
      · simp [setField, hg, ha] at h
    · cases hr : setField rest name x with
      | error e => simp [setField, hg, hr] at h
      | ok rest1 =>
        simp only [setField, hg, hr, if_false, Except.ok.injEq] at h
        subst h
        simp [fieldByName, setField_frame rest rest1 name x hr n hn]

/-- On a pointer to a struct with a `Document` field, `CreateDoc` injects
the copy of the prototype before it generates the identifier: the `Document`
is in place whether or not the assignment of `Id` then succeeds, and the
registry is as it was. -/
theorem CreateDoc_injects (w : World) (a : Addr) (T : String)
    (h : HasDocumentField (w.cells a) T) :
    documentOf (CreateDoc w (.pointer a)).2 a = some
        { (mapIndex w.z.documents T).getD Document.zero with
          schema := .pointer a,
          Model := (mapIndex w.z.models T).getD none,
          Virtual := some w.virtuals } ∧
      (CreateDoc w (.pointer a)).2.z = w.z ∧
      (CreateDoc w (.pointer a)).2.collections = w.collections := by
  obtain ⟨fields, fd, hcell, hD, hDt⟩ := h
  obtain ⟨fields1, hs1, hd1, _⟩ := setField_ok fields "Document"
    (.document { (mapIndex w.z.documents T).getD Document.zero with
          schema := .pointer a,
          Model := (mapIndex w.z.models T).getD none,
          Virtual := some w.virtuals }) fd hD (assignable_document _ hDt)
  cases hs2 : setField fields1 "Id" (.objectId (NewObjectId w.bson).1) with
  | error e =>
    have hcd : CreateDoc w (.pointer a) = (.error e,
        { w with
          virtuals := w.virtuals + 1,
          cells := storeCell w.cells a (.struct T fields1),
          bson := (NewObjectId w.bson).2 }) := by
      simp only [CreateDoc, newVirtual, hcell, Value.typeName]
      rw [hs1]
      simp only
      rw [hs2]
    rw [hcd]
    exact ⟨by simp [documentOf, storeCell, hd1], rfl, rfl⟩
  | ok fields2 =>
    have hcd : CreateDoc w (.pointer a) = (.ok (),
        { w with
          virtuals := w.virtuals + 1,
          cells := storeCell (storeCell w.cells a (.struct T fields1)) a (.struct T fields2),
          bson := (NewObjectId w.bson).2 }) := by
      simp only [CreateDoc, newVirtual, hcell, Value.typeName]
      rw [hs1]
      simp only
      rw [hs2]
    have hD2 : fieldByName fields2 "Document" = _ :=
      (setField_frame fields1 fields2 "Id" _ hs2 "Document" (by decide)).trans hd1
    rw [hcd]
    exact ⟨by simp [documentOf, storeCell, hD2], rfl, rfl⟩

/-- When `Register` of a struct returns, the registry had a database handle
and non-nil maps, the model is the newly allocated one and the state is
`registered`. -/
theorem Register_returns (w : World) (T : String) (fields : List (Field Value))
    (collectionName : String) (m : Option Addr) (w1 : World)
    (hr : Register w (.struct T fields) collectionName = (.ok m, w1)) :
    ∃ db ms ds, w.z.Db = some db ∧ w.z.models = some ms ∧ w.z.documents = some ds ∧
      m = some w.models.length ∧
      w1 = registered w T (.struct T fields) collectionName db ms ds := by
  cases hId : fieldByName fields "Id" with
  | none => simp [Register, Value.kind, FieldByName, hId] at hr
  | some f =>
    have ho := Register_outcome w T fields collectionName f hId
    rw [hr] at ho
    cases hDb : w.z.Db with
    | none => simp [hDb] at ho
    | some db =>
      cases hm : w.z.models with
      | none => simp [hDb, hm] at ho
      | some ms =>
        cases hd : w.z.documents with
        | none => simp [hDb, hm, hd] at ho
        | some ds =>
          rw [Register_ok w T fields collectionName f db ms ds hId hDb hm hd] at hr
          simp only [Prod.mk.injEq, Except.ok.injEq] at hr
          exact ⟨db, ms, ds, rfl, rfl, rfl, hr.1.symm, hr.2.symm⟩

theorem getElem?_append_pair {α : Type} (l : List α) (x y : α) :
    (l ++ [x, y])[l.length + 1]? = some y := by
  induction l with
  | nil => rfl
  | cons a l ih => simpa using ih

/-! ## The identifier generator -/

theorem NewObjectId_length (b : BsonState) : (NewObjectId b).1.length = 12 := rfl

/-- Two successive calls of `bson.NewObjectId` give different identifiers:
the counter bytes differ. -/
theorem NewObjectId_successive_ne (b : BsonState) :
    (NewObjectId b).1 ≠ (NewObjectId (NewObjectId b).2).1 := by
  intro h
  simp only [NewObjectId, List.cons.injEq, and_true] at h
  obtain ⟨_, _, _, _, _, _, _, _, _, h1, h2, h3⟩ := h
  norm_num at h1 h2 h3
  omega

/-! ## Claims about registration -/

/-- C1: in every state, for every struct value of type `T` with a field
`Id` and every collection name: when `Register` returns the model `m`, then
`m` is a newly allocated model, `Model(T)` returns exactly `m`, `C(T)` returns
`ok = true` with the collection handle made for this call, and the entry of
`documents` under `T` is the prototype built by this call, whatever was
stored under `T` before; the entries under other names are untouched.  With a
database handle and non-nil maps (as `New` makes them) `Register` does
return. -/
theorem Register_then_lookup (w : World) (T : String) (fields : List (Field Value))
    (collectionName : String) (f : Field Value) (h : fieldByName fields "Id" = some f) :
    (∀ m w', Register w (.struct T fields) collectionName = (.ok m, w') →
      m = some w.models.length ∧
      Marango.Model w' T = m ∧
      C w' T = (some (w.collections.length + 1), true) ∧
      mapIndex w'.z.documents T =
        some { C := some (w.collections.length + 1), isQueried := true,
               schemaStruct := .struct T fields, Model := m,
               populated := some w.maps.length, Found := true,
               schema := .nil, Virtual := none } ∧
      ∀ k, k ≠ T →
        mapIndex w'.z.documents k = mapIndex w.z.documents k ∧
        Marango.Model w' k = Marango.Model w k) ∧
    (w.z.Db.isSome → w.z.models.isSome → w.z.documents.isSome →
      ∃ m w', Register w (.struct T fields) collectionName = (.ok m, w')) := by
  constructor
  · intro m w' hr
    have ho := Register_outcome w T fields collectionName f h
    rw [hr] at ho
    cases hDb : w.z.Db with
    | none => simp [hDb] at ho
    | some db =>
      cases hm : w.z.models with
      | none => simp [hDb, hm] at ho
      | some ms =>
        cases hd : w.z.documents with
        | none => simp [hDb, hm, hd] at ho
        | some ds =>
          rw [Register_ok w T fields collectionName f db ms ds h hDb hm hd] at hr
          simp only [Prod.mk.injEq, Except.ok.injEq] at hr
          obtain ⟨hm', hw'⟩ := hr
          subst hm' hw'
          refine ⟨rfl, ?_, ?_, ?_, ?_⟩
          · simp [Marango.Model, registered, mapIndex]
          · simp [C, registered, mapIndex]
          · simp [registered, mapIndex]
          · intro k hk
            simp [Marango.Model, registered, mapIndex, hk, hm, hd]
  · intro hDb hm hd
    obtain ⟨db, hDb⟩ := Option.isSome_iff_exists.1 hDb
    obtain ⟨ms, hm⟩ := Option.isSome_iff_exists.1 hm
    obtain ⟨ds, hd⟩ := Option.isSome_iff_exists.1 hd
    exact ⟨_, _, Register_ok w T fields collectionName f db ms ds h hDb hm hd⟩

theorem Register_then_lookup_witness :
    ∃ m w', Register registeredWorld (.struct "User" (userFields "Zed")) "people" = (.ok m, w') ∧
      Marango.Model registeredWorld "User" = some 0 ∧
      m = some 1 ∧
      Marango.Model w' "User" = m ∧
      C registeredWorld "User" = (some 1, true) ∧
      C w' "User" = (some 3, true) := by
  have hId : fieldByName (userFields "Zed") "Id" =
      some { name := "Id", type := .objectId, value := .objectId zeroObjectId } := rfl
  have key := Register_then_lookup registeredWorld "User" (userFields "Zed") "people" _ hId
  obtain ⟨m, w', hr⟩ := key.2 rfl rfl rfl
  obtain ⟨h1, h2, h3, _, _⟩ := key.1 m w' hr
  exact ⟨m, w', hr, rfl, h1, h2, rfl, h3⟩

/-- C4: in every state, `Register` with a `schema` whose kind is pointer
panics with "Expected value, got a pointer" and leaves the whole state, the
maps `documents` and `models` included, as it was. -/
theorem Register_rejects_pointer (w : World) (schema : Value) (collectionName : String)
    (h : schema.kind = some .Ptr) :
    Register w schema collectionName = (.error (.str "Expected value, got a pointer"), w) ∧
    (Register w schema collectionName).2.z.documents = w.z.documents ∧
    (Register w schema collectionName).2.z.models = w.z.models := by
  have key : Register w schema collectionName =
      (.error (.str "Expected value, got a pointer"), w) := by
    simp [Register, h]
  simp [key]

theorem Register_rejects_pointer_witness :
    Register registeredWorld (.pointer 0) "users" =
      (.error (.str "Expected value, got a pointer"), registeredWorld) ∧
    Register registeredWorld (.nilPointer "User") "users" =
      (.error (.str "Expected value, got a pointer"), registeredWorld) :=
  ⟨(Register_rejects_pointer registeredWorld (.pointer 0) "users" rfl).1,
   (Register_rejects_pointer registeredWorld (.nilPointer "User") "users" rfl).1⟩

/-- C5: for a struct value of type `T` without a field `Id`, `Register`
panics with a message that contains `T` and leaves the state as it was, so
nothing is stored; for a struct value with a field `Id`, `Register` does not
raise that panic. -/
theorem Register_requires_Id (w : World) (T : String) (fields : List (Field Value))
    (collectionName : String) :
    (fieldByName fields "Id" = none →
      Register w (.struct T fields) collectionName =
        (.error (.str ("Schema `" ++ T ++ "` must have an `Id` field")), w)) ∧
    (∀ f, fieldByName fields "Id" = some f →
      (Register w (.struct T fields) collectionName).1 ≠
        .error (.str ("Schema `" ++ T ++ "` must have an `Id` field"))) := by
  constructor
  · intro h
    simp [Register, Value.kind, Value.typeName, FieldByName, h]
  · intro f h
    rw [Register_outcome w T fields collectionName f h]
    split_ifs <;> simp [nilDereference, nilMapAssignment]

theorem Register_requires_Id_witness :
    Register freshWorld (.struct "Point" pointFields) "points" =
      (.error (.str "Schema `Point` must have an `Id` field"), freshWorld) ∧
    (Register freshWorld (.struct "User" (userFields "")) "users").1 ≠
      .error (.str "Schema `User` must have an `Id` field") :=
  ⟨(Register_requires_Id freshWorld "Point" pointFields "points").1 rfl,
   (Register_requires_Id freshWorld "User" (userFields "") "users").2 _ rfl⟩

/-! ## Claims about materialisation -/

/-- C6: when `Register(T{}, coll)` has returned the model `m`, then for every
pointer `p` to an instance of `T` with a `Document` field: after
`CreateDoc(p)` the `Document` injected into `*p` has `Found = true` and
`isQueried = true`, its `Model` is `m`, the very pointer the registry holds
under `T`, its `schema` is `p`, and its collection handle is the handle of
the registry's prototype, which denotes the collection `coll`; when the
instance also has its `Id` field, `CreateDoc(p)` returns. -/
theorem CreateDoc_inherits_prototype (w : World) (T : String) (fields : List (Field Value))
    (collectionName : String) (m : Option Addr) (w1 : World) (p : Addr)
    (hreg : Register w (.struct T fields) collectionName = (.ok m, w1))
    (hp : HasDocumentField (w1.cells p) T) :
    (∃ d, documentOf (CreateDoc w1 (.pointer p)).2 p = some d ∧
      d.Found = true ∧ d.isQueried = true ∧
      d.Model = m ∧ m ≠ none ∧ Marango.Model (CreateDoc w1 (.pointer p)).2 T = m ∧
      d.schema = .pointer p ∧
      d.C = (C w1 T).1 ∧
      (∃ proto, mapIndex (CreateDoc w1 (.pointer p)).2.z.documents T = some proto ∧
        d.C = proto.C) ∧
      ∃ c col, d.C = some c ∧ (CreateDoc w1 (.pointer p)).2.collections[c]? = some col ∧
        col.Name = collectionName) ∧
    (IsInstance (w1.cells p) T → ∃ w2, CreateDoc w1 (.pointer p) = (.ok (), w2)) := by
  obtain ⟨db, ms, ds, hDb, hm, hd, hm', hw1⟩ :=
    Register_returns w T fields collectionName m w1 hreg
  obtain ⟨hdoc, hz, hcol⟩ := CreateDoc_injects w1 p T hp
  refine ⟨?_, fun hi => ?_⟩
  · subst hm' hw1
    refine ⟨_, hdoc, ?_, ?_, ?_, ?_, ?_, rfl, ?_, ?_, ?_⟩
    · simp [registered, mapIndex]
    · simp [registered, mapIndex]
    · simp [registered, mapIndex]
    · simp
    · simp only [Marango.Model, hz]
      simp [registered, mapIndex]
    · simp [C, registered, mapIndex]
    · refine ⟨{ C := some (w.collections.length + 1), isQueried := true,
                schemaStruct := .struct T fields, Model := some w.models.length,
                populated := some w.maps.length, Found := true,
                schema := .nil, Virtual := none }, ?_, ?_⟩
      · rw [hz]
        simp [registered, mapIndex]
      · simp [registered, mapIndex]
    · refine ⟨w.collections.length + 1,
        { Database := db, Name := collectionName,
          FullName := db.Name ++ "." ++ collectionName },
        by simp [registered, mapIndex], ?_, rfl⟩
      rw [hcol]
      exact getElem?_append_pair w.collections _ _
  · obtain ⟨w2, hcd, _⟩ := CreateDoc_ok w1 p T hi
    exact ⟨w2, hcd⟩

theorem CreateDoc_inherits_prototype_witness :
    ∃ w2 d, CreateDoc registeredWorld (.pointer 0) = (.ok (), w2) ∧
      documentOf w2 0 = some d ∧
      d.Found = true ∧ d.isQueried = true ∧ d.Model = some 0 ∧
      d.schema = .pointer 0 ∧ d.C = (C registeredWorld "User").1 := by
  have hreg : Register freshWorld (.struct "User" (userFields "")) "users" =
      (.ok (some 0), registeredWorld) := rfl
  have hp : HasDocumentField (registeredWorld.cells 0) "User" :=
    ⟨userFields "Ann", _, rfl, rfl, Or.inl rfl⟩
  have hi : IsInstance (registeredWorld.cells 0) "User" :=
    ⟨userFields "Ann", _, _, rfl, rfl, Or.inl rfl, rfl, Or.inl rfl⟩
  have key := CreateDoc_inherits_prototype freshWorld "User" (userFields "") "users" (some 0)
      registeredWorld 0 hreg hp
  obtain ⟨d, h2, h3, h4, h5, _, _, h6, h7, _⟩ := key.1
  obtain ⟨w2, h1⟩ := key.2 hi
  rw [h1] at h2
  exact ⟨w2, d, h1, h2, h3, h4, h5, h6, h7⟩

/-- C7, as stated, fails: `Bare{Id}` has an `Id` field, so `Register`
accepts it, but it has no field `Document`; `CreateDoc` on a pointer to a
`Bare` panics at the assignment of the `Document` field (`Set` on the zero
Value), before an identifier is generated, and `Id` still holds the
identifier it held. -/
theorem CreateDoc_without_Document_field :
    (Register freshWorld (.struct "Bare" bareFields) "bares").1 = .ok (some 0) ∧
    idOf (Register freshWorld (.struct "Bare" bareFields) "bares").2 3 =
      some [80, 127, 31, 119, 188, 248, 108, 215, 153, 67, 144, 17] ∧
    (CreateDoc (Register freshWorld (.struct "Bare" bareFields) "bares").2 (.pointer 3)).1 =
      .error (.reflect "call of reflect.Value.Set on zero Value") ∧
    idOf (CreateDoc (Register freshWorld (.struct "Bare" bareFields) "bares").2
        (.pointer 3)).2 3 =
      some [80, 127, 31, 119, 188, 248, 108, 215, 153, 67, 144, 17] :=
  ⟨rfl, rfl, rfl, rfl⟩

/-- C7, amended: for every pointer `p` to an instance, of a registered
schema or not, that has a field `Document` of type `Document` and a field
`Id` of type `bson.ObjectId` (or of type `interface{}`), whatever `Id` held,
`CreateDoc(p)` returns and leaves in `Id` the identifier that
`bson.NewObjectId` has just generated, which has 12 bytes and so is not the
zero identifier; a second `CreateDoc(p)` returns as well and leaves an
identifier different from the first. -/
theorem CreateDoc_assigns_fresh_identifier (w : World) (p : Addr) (T : String)
    (hp : IsInstance (w.cells p) T) :
    ∃ w1 w2 id1 id2,
      CreateDoc w (.pointer p) = (.ok (), w1) ∧ idOf w1 p = some id1 ∧
      id1 = (NewObjectId w.bson).1 ∧ id1.length = 12 ∧ id1 ≠ zeroObjectId ∧
      CreateDoc w1 (.pointer p) = (.ok (), w2) ∧ idOf w2 p = some id2 ∧
      id2 = (NewObjectId w1.bson).1 ∧ id2.length = 12 ∧ id2 ≠ zeroObjectId ∧
      id1 ≠ id2 := by
  obtain ⟨w1, hcd1, _, hid1, hp1, _, _, _, _, _, hb1, _⟩ := CreateDoc_ok w p T hp
  obtain ⟨w2, hcd2, _, hid2, _, _, _, _, _, _, _, _⟩ := CreateDoc_ok w1 p T hp1
  refine ⟨w1, w2, _, _, hcd1, hid1, rfl, rfl, ?_, hcd2, hid2, rfl, rfl, ?_, ?_⟩
  · simp [NewObjectId, zeroObjectId]
  · simp [NewObjectId, zeroObjectId]
  · rw [hb1]
    exact NewObjectId_successive_ne w.bson

theorem CreateDoc_assigns_fresh_identifier_witness :
    ∃ w1 w2 id1 id2,
      CreateDoc registeredWorld (.pointer 0) = (.ok (), w1) ∧ idOf w1 0 = some id1 ∧
      id1 = [86, 57, 74, 128, 1, 2, 3, 16, 146, 0, 0, 8] ∧
      CreateDoc w1 (.pointer 0) = (.ok (), w2) ∧ idOf w2 0 = some id2 ∧
      id1 ≠ id2 := by
  have hp : IsInstance (registeredWorld.cells 0) "User" :=
    ⟨userFields "Ann", _, _, rfl, rfl, Or.inl rfl, rfl, Or.inl rfl⟩
  obtain ⟨w1, w2, id1, id2, h1, h2, h3, _, _, h4, h5, _, _, _, h6⟩ :=
    CreateDoc_assigns_fresh_identifier registeredWorld 0 "User" hp
  exact ⟨w1, w2, id1, id2, h1, h2, h3.trans (by decide), h4, h5, h6⟩

/-- C8: for every registry and every pointer `p` to a well-formed instance
whose type name has no entry in `documents` nor in `models`, `CreateDoc(p)`
returns without a panic, and the injected `Document` is the zero `Document`
but for the two fields `CreateDoc` itself sets (`schema` and `Virtual`): its
collection handle, model, population cache and prototype schema are nil and
its flags `Found` and `isQueried` are false. -/
theorem CreateDoc_unregistered (w : World) (p : Addr) (T : String)
    (hp : IsInstance (w.cells p) T)
    (hdocs : mapIndex w.z.documents T = none) (hmodels : mapIndex w.z.models T = none) :
    ∃ w1 d, CreateDoc w (.pointer p) = (.ok (), w1) ∧
      documentOf w1 p = some d ∧
      d = { Document.zero with schema := .pointer p, Virtual := some w.virtuals } ∧
      d.C = none ∧ d.Model = none ∧ d.populated = none ∧
      d.Found = false ∧ d.isQueried = false ∧ d.schemaStruct = .nil := by
  obtain ⟨w1, hcd, hdoc, _⟩ := CreateDoc_ok w p T hp
  rw [hdocs, hmodels] at hdoc
  exact ⟨w1, _, hcd, hdoc, rfl, rfl, rfl, rfl, rfl, rfl, rfl⟩

theorem CreateDoc_unregistered_witness :
    ∃ w1 d, CreateDoc freshWorld (.pointer 0) = (.ok (), w1) ∧
      documentOf w1 0 = some d ∧
      d.C = none ∧ d.Model = none ∧ d.populated = none ∧
      d.Found = false ∧ d.isQueried = false := by
  have hp : IsInstance (freshWorld.cells 0) "User" :=
    ⟨userFields "Ann", _, _, rfl, rfl, Or.inl rfl, rfl, Or.inl rfl⟩
  obtain ⟨w1, d, h1, h2, _, h3, h4, h5, h6, h7, _⟩ :=
    CreateDoc_unregistered freshWorld 0 "User" hp rfl rfl
  exact ⟨w1, d, h1, h2, h3, h4, h5, h6, h7⟩

/-- C10, refuted by the code: after `Register(T{}, coll)`, materialising
two different instances `p` and `q` of `T` injects into both the very map
object of the registry's prototype as `populated`: the three are one
reference to the one map that `Register` made, so an entry written through
one document is seen through the other and through the prototype. -/
theorem CreateDoc_shares_populated (w : World) (T : String) (fields : List (Field Value))
    (collectionName : String) (m : Option Addr) (w1 : World) (p q : Addr)
    (hreg : Register w (.struct T fields) collectionName = (.ok m, w1))
    (hp : IsInstance (w1.cells p) T) (hq : IsInstance (w1.cells q) T) (hpq : p ≠ q) :
    ∃ w2 w3 dp dq proto,
      CreateDoc w1 (.pointer p) = (.ok (), w2) ∧
      CreateDoc w2 (.pointer q) = (.ok (), w3) ∧
      documentOf w3 p = some dp ∧ documentOf w3 q = some dq ∧
      mapIndex w3.z.documents T = some proto ∧
      dp.populated = some w.maps.length ∧
      dq.populated = some w.maps.length ∧
      proto.populated = some w.maps.length ∧
      w3.maps.length = w.maps.length + 1 := by
  obtain ⟨db, ms, ds, hDb, hm, hd, hm', hw1⟩ :=
    Register_returns w T fields collectionName m w1 hreg
  obtain ⟨w2, hcd2, hdoc2, _, _, hcells2, hz2, hmaps2, _⟩ := CreateDoc_ok w1 p T hp
  have hq2 : IsInstance (w2.cells q) T := by
    rw [hcells2 q (Ne.symm hpq)]; exact hq
  obtain ⟨w3, hcd3, hdoc3, _, _, hcells3, hz3, hmaps3, _⟩ := CreateDoc_ok w2 q T hq2
  have hdp : documentOf w3 p = documentOf w2 p := by
    simp only [documentOf, hcells3 p hpq]
  subst hw1
  refine ⟨w2, w3, _, _,
    { C := some (w.collections.length + 1), isQueried := true,
      schemaStruct := .struct T fields, Model := some w.models.length,
      populated := some w.maps.length, Found := true, schema := .nil, Virtual := none },
    hcd2, hcd3, hdp.trans hdoc2, hdoc3, ?_, ?_, ?_, rfl, ?_⟩
  · rw [hz3, hz2]
    simp [registered, mapIndex]
  · simp [registered, mapIndex]
  · simp [hz2, registered, mapIndex]
  · rw [hmaps3, hmaps2]
    simp [registered]

theorem CreateDoc_shares_populated_witness :
    ∃ w2 w3 dp dq proto,
      CreateDoc registeredWorld (.pointer 0) = (.ok (), w2) ∧
      CreateDoc w2 (.pointer 1) = (.ok (), w3) ∧
      documentOf w3 0 = some dp ∧ documentOf w3 1 = some dq ∧
      mapIndex w3.z.documents "User" = some proto ∧
      dp.populated = some 0 ∧ dq.populated = some 0 ∧ proto.populated = some 0 := by
  have hreg : Register freshWorld (.struct "User" (userFields "")) "users" =
      (.ok (some 0), registeredWorld) := rfl
  have hp : IsInstance (registeredWorld.cells 0) "User" :=
    ⟨userFields "Ann", _, _, rfl, rfl, Or.inl rfl, rfl, Or.inl rfl⟩
  have hq : IsInstance (registeredWorld.cells 1) "User" :=
    ⟨userFields "Bob", _, _, rfl, rfl, Or.inl rfl, rfl, Or.inl rfl⟩
  obtain ⟨w2, w3, dp, dq, proto, h1, h2, h3, h4, h5, h6, h7, h8, _⟩ :=
    CreateDoc_shares_populated freshWorld "User" (userFields "") "users" (some 0)
      registeredWorld 0 1 hreg hp hq (by decide)
  exact ⟨w2, w3, dp, dq, proto, h1, h2, h3, h4, h5, h6, h7, h8⟩

end Odm
